import Mathlib

/-!
Verification development for the rabbitmq-async-demo repository.

The repository contains four small Python programs talking to a RabbitMQ
broker through the pika client library:
  * src/producer.py     - publishes N enveloped JSON messages,
  * src/consumer.py     - terminal consumer with manual acks,
  * src/consumer_gui.py - Tkinter consumer; committed in a state in which
    the module fails to parse (see the note at its namespace below), so
    only its connection-parameter construction is modelled,
  * src/monitor.py      - HTTP-API dashboard (out of core, not modelled).

This file gives a shallow embedding of the broker-facing logic of those
programs: the connection parameters built by `open_channel`, the topology
operations (`declare_topology` in the producer, `ensure_queue` in the
consumer) acting on an explicit broker state, the producer's publish loop,
and the terminal consumer's `on_msg` delivery callback as a function from
a delivery to the list of broker-visible actions it performs.

External library behaviour is represented at its interface boundary:
  * `json.loads` either yields an object (with optional "n"/"text" fields)
    or raises - a delivered body is therefore embedded as either a parsed
    object or an unparsable byte string (`Body`);
  * `uuid.uuid4` / `time.time` are injected as identifier/clock streams
    indexed by the publish position;
  * calls that can raise (the display side effect, `basic_ack`) take a
    boolean input saying whether that call raises, and the embedding
    tracks which exception, if any, escapes the callback.
In the source, `args`, `count` and the channels are names captured by the
callback; here they are explicit parameters and explicit state.
-/

namespace RabbitDemo

/-! ## Broker-state model: queues, exchanges, bindings -/

/-- Errors surfaced by the pika client, as used by this repository. -/
inductive BrokerError where
  /-- `pika.exceptions.ChannelClosedByBroker`: here, the broker closing the
  channel after a passive declare of an absent queue (404 NOT_FOUND). -/
  | channelClosedByBroker
  /-- 406 PRECONDITION_FAILED: re-declare with incompatible arguments. -/
  | preconditionFailed
  deriving DecidableEq, Repr

/-- Queue-declaration arguments used by the programs: `x-queue-type`
(always "classic" here) and the optional `x-queue-mode` ("lazy"). -/
structure QueueArgs where
  queueType : String
  queueMode : Option String
  deriving DecidableEq, Repr

/-- The `qargs` dictionary built by both programs: `x-queue-type=classic`,
plus `x-queue-mode=lazy` exactly when lazy mode is requested. -/
def qargsFor (lazy : Bool) : QueueArgs :=
  { queueType := "classic", queueMode := if lazy then some "lazy" else none }

/-- A queue's broker-side configuration as declared by these programs. -/
structure QueueSpec where
  durable : Bool
  args : QueueArgs
  deriving DecidableEq, Repr

/-- An exchange's broker-side configuration. -/
structure ExchangeSpec where
  exchangeType : String
  durable : Bool
  deriving DecidableEq, Repr

/-- A queue-to-exchange binding. -/
structure Binding where
  queue : String
  exchange : String
  routingKey : String
  deriving DecidableEq, Repr

/-- Broker state visible to the topology operations of these programs. -/
structure BrokerState where
  queues : List (String × QueueSpec)
  exchanges : List (String × ExchangeSpec)
  bindings : List Binding
  deriving DecidableEq, Repr

/-- A broker with no queues, exchanges or bindings. -/
def emptyBroker : BrokerState := { queues := [], exchanges := [], bindings := [] }

/-- Look up an entry by name in an association list (first match). -/
def lookupBy {α : Type} : List (String × α) → String → Option α
  | [], _ => none
  | (n, a) :: rest, q => if n = q then some a else lookupBy rest q

/-- `queue_declare(queue, passive=True)`: existence probe; the broker does
not check arguments, and on a missing queue it closes the channel
(`ChannelClosedByBroker`). -/
def queueDeclarePassive (s : BrokerState) (q : String) : Except BrokerError Unit :=
  if (lookupBy s.queues q).isSome then .ok () else .error .channelClosedByBroker

/-- `queue_declare(queue, durable=…, arguments=…)` (active): creates the
queue if absent; a no-op when it exists with equal configuration; raises
406 PRECONDITION_FAILED when it exists with a different configuration. -/
def queueDeclareActive (s : BrokerState) (q : String) (spec : QueueSpec) :
    Except BrokerError BrokerState :=
  match lookupBy s.queues q with
  | none => .ok { s with queues := s.queues ++ [(q, spec)] }
  | some existing => if existing = spec then .ok s else .error .preconditionFailed

/-- `exchange_declare(exchange, exchange_type=…, durable=…)`: same
create/no-op/mismatch semantics as an active queue declare. -/
def exchangeDeclare (s : BrokerState) (x : String) (spec : ExchangeSpec) :
    Except BrokerError BrokerState :=
  match lookupBy s.exchanges x with
  | none => .ok { s with exchanges := s.exchanges ++ [(x, spec)] }
  | some existing => if existing = spec then .ok s else .error .preconditionFailed

/-- `queue_bind(queue, exchange, routing_key)`: idempotent; adds the
binding when absent. -/
def queueBind (s : BrokerState) (b : Binding) : BrokerState :=
  if b ∈ s.bindings then s else { s with bindings := s.bindings ++ [b] }

/-! ## Connection parameters (`open_channel` in producer and consumer) -/

/-- The fields of `pika.ConnectionParameters` that these programs touch.
`heartbeat`/`blocked_connection_timeout` are `none` when the constructor
call leaves them unset (pika then uses its own defaults). -/
structure ConnectionParameters where
  host : String
  virtual_host : String
  hasCredentials : Bool
  connection_name : String
  heartbeat : Option Nat
  blocked_connection_timeout : Option Nat
  deriving DecidableEq, Repr

namespace Producer

/-- Connection parameters built by `open_channel` in src/producer.py
(lines 11-18): host, vhost, credentials (when `username` is truthy) and a
connection name; no heartbeat or blocked-connection timeout is passed. -/
def open_channel_params (host vhost username conn_name : String) :
    ConnectionParameters :=
  { host := host, virtual_host := vhost,
    hasCredentials := username ≠ "",
    connection_name := conn_name,
    heartbeat := none, blocked_connection_timeout := none }

end Producer

namespace Consumer

/-- Connection parameters built by `open_channel` in src/consumer.py
(lines 12-21): additionally sets `heartbeat=600` and
`blocked_connection_timeout=300`. -/
def open_channel_params (host vhost username conn_name : String) :
    ConnectionParameters :=
  { host := host, virtual_host := vhost,
    hasCredentials := username ≠ "",
    connection_name := conn_name,
    heartbeat := some 600, blocked_connection_timeout := some 300 }

end Consumer

namespace ConsumerGui

/-- Connection parameters built by `run_consumer` in src/consumer_gui.py
(lines 11-15): like the producer's, no heartbeat or blocked-connection
timeout is passed. -/
def run_consumer_params (host vhost username conn_name : String) :
    ConnectionParameters :=
  { host := host, virtual_host := vhost,
    hasCredentials := username ≠ "",
    connection_name := conn_name,
    heartbeat := none, blocked_connection_timeout := none }

end ConsumerGui

/-! ## Topology bootstrap -/

namespace Consumer

/-- `ensure_queue(ch, conn, queue, lazy)` from src/consumer.py (lines
23-35): try a passive declare on channel `ch`; on
`ChannelClosedByBroker` open a fresh channel from the connection
(modelled by the `nextCh` counter) and actively declare the queue
durable with `x-queue-type=classic` (plus `x-queue-mode=lazy` when
`lazy`). Returns the broker state, the channel to use from now on, and
the connection's next fresh channel id. -/
def ensure_queue (s : BrokerState) (ch nextCh : Nat) (queue : String) (lazy : Bool) :
    Except BrokerError (BrokerState × Nat × Nat) :=
  match queueDeclarePassive s queue with
  | .ok _ => .ok (s, ch, nextCh)
  | .error _ =>
      match queueDeclareActive s queue { durable := true, args := qargsFor lazy } with
      | .ok s1 => .ok (s1, nextCh, nextCh + 1)
      | .error e => .error e

end Consumer

namespace Producer

/-- `declare_topology(ch, exchange, work_queue, audit_queue, routing_key,
durable, lazy)` from src/producer.py (lines 20-31): unconditionally
declares the direct durable exchange, the work queue (durable per the
flag, `classic`, lazy arg when requested) and its binding, and - when
`audit_queue` is truthy (non-empty) - the audit queue and its binding. -/
def declare_topology (s : BrokerState) (exchange work_queue audit_queue routing_key : String)
    (durable lazy : Bool) : Except BrokerError BrokerState :=
  match exchangeDeclare s exchange { exchangeType := "direct", durable := true } with
  | .error e => .error e
  | .ok s1 =>
      match queueDeclareActive s1 work_queue { durable := durable, args := qargsFor lazy } with
      | .error e => .error e
      | .ok s2 =>
          let s3 := queueBind s2
            { queue := work_queue, exchange := exchange, routingKey := routing_key }
          if audit_queue ≠ "" then
            match queueDeclareActive s3 audit_queue { durable := durable, args := qargsFor lazy } with
            | .error e => .error e
            | .ok s4 => .ok (queueBind s4
                { queue := audit_queue, exchange := exchange, routingKey := routing_key })
          else .ok s3

end Producer

/-! ## Producer publish loop -/

/-- A Python-level error the producer's loop can raise. -/
inductive PyError where
  /-- `ZeroDivisionError`: `i % progress_every` with `progress_every = 0`. -/
  | zeroDivisionError
  deriving DecidableEq, Repr

/-- One published message as assembled in the loop body of `main` in
src/producer.py (lines 72-80): body fields `n` (the 1-based loop index),
`text`, `sent_by`, and properties `message_id` (a fresh `uuid.uuid4`
draw) and `timestamp` (`int(time.time())`), with
`delivery_mode = 2` iff durable. -/
structure Envelope where
  n : Nat
  text : String
  sent_by : String
  message_id : Nat
  timestamp : Nat
  delivery_mode : Nat
  deriving DecidableEq, Repr

namespace Producer

/-- The envelope published at loop index `i`, with `uuidGen`/`clock` the
identifier and clock streams sampled at that iteration. -/
def mkEnv (uuidGen clock : Nat → Nat) (text producer_id : String) (durable : Bool)
    (i : Nat) : Envelope :=
  { n := i, text := text, sent_by := producer_id,
    message_id := uuidGen i, timestamp := clock i,
    delivery_mode := if durable then 2 else 1 }

/-- The publish loop of `main` in src/producer.py (lines 72-80), from
index `i` with `r` iterations left: publish the envelope for `i`, then
evaluate `i % progress_every` for the progress report - in Python this
raises `ZeroDivisionError` when `progress_every = 0`. Returns the
messages published (in order) and the raised error, if any. -/
def publishLoop (uuidGen clock : Nat → Nat) (text producer_id : String) (durable : Bool)
    (progress_every : Nat) : Nat → Nat → List Envelope → List Envelope × Option PyError
  | _, 0, acc => (acc, none)
  | i, r + 1, acc =>
      let acc1 := acc ++ [mkEnv uuidGen clock text producer_id durable i]
      if progress_every = 0 then (acc1, some .zeroDivisionError)
      else publishLoop uuidGen clock text producer_id durable progress_every (i + 1) r acc1

/-- A whole producer run: `for i in range(1, count + 1)`. -/
def producerRun (uuidGen clock : Nat → Nat) (text producer_id : String) (durable : Bool)
    (count progress_every : Nat) : List Envelope × Option PyError :=
  publishLoop uuidGen clock text producer_id durable progress_every 1 count []

end Producer

/-! ## Consumer delivery callbacks -/

/-- Basic properties of a delivery, as read by the consumers:
`props.message_id` and the `producer_id` header. -/
structure Props where
  message_id : Option String
  headers : Option (List (String × String))
  deriving DecidableEq, Repr

/-- `(props.headers or {}).get("producer_id") if props else None`. -/
def producerOf (props : Option Props) : Option String :=
  match props with
  | none => none
  | some p =>
      match p.headers with
      | none => none
      | some hs => lookupBy hs "producer_id"

/-- `getattr(props, "message_id", None)`. -/
def msgIdOf (props : Option Props) : Option String :=
  match props with
  | none => none
  | some p => p.message_id

/-- A delivery body seen through `json.loads` (library code): either the
bytes parse as a JSON object - `data.get("n")` and `data.get("text")`
then yield the optional fields - or parsing (or the `.get` attribute
access) raises and the `except` branch decodes the raw bytes with
`body.decode("utf-8", "ignore")`, which cannot itself raise. -/
inductive Body where
  | jsonObj (n : Option Int) (text : Option String)
  | notJson (raw : String)
  deriving DecidableEq, Repr

/-- Python `str()` of an optional int, as an f-string renders it. -/
def pyStrOptInt : Option Int → String
  | none => "None"
  | some i => toString i

/-- Python `str()` of an optional string, as an f-string renders it. -/
def pyStrOptStr : Option String → String
  | none => "None"
  | some s => s

/-- The `n=… text=…` portion of the display line: the parsed fields when
the body is JSON, otherwise `n` shown as "?" and the raw decoded text. -/
def shownFields (body : Body) : String × String :=
  match body with
  | .jsonObj n t => (pyStrOptInt n, pyStrOptStr t)
  | .notJson raw => ("?", raw)

/-- What one display (print / ui line) of a delivery contains. -/
structure DisplayLine where
  name : String
  count : Nat
  msg_id : Option String
  producer : Option String
  nShown : String
  textShown : String
  deriving DecidableEq, Repr

/-- Broker- and user-visible actions a delivery callback performs, in
order. Channels are identified by numeric handles. -/
inductive Event where
  | displayed (line : DisplayLine)
  | acked (ch tag : Nat)
  | nacked (ch tag : Nat) (requeue : Bool)
  | stoppedConsuming (ch : Nat)
  deriving DecidableEq, Repr

/-- Is this event an ack or a nack (a settlement of the delivery)? -/
def Event.isSettlement : Event → Bool
  | .acked _ _ => true
  | .nacked _ _ _ => true
  | _ => false

/-- Is this event a nack? -/
def Event.isNack : Event → Bool
  | .nacked _ _ _ => true
  | _ => false

/-- The exception escaping a callback, when one does. -/
inductive EscapeKind where
  /-- The display side effect raised and nothing caught it. -/
  | displayError
  /-- `basic_ack` raised and nothing caught it. -/
  | ackError
  deriving DecidableEq, Repr

/-- `args.expect and count >= args.expect` under Python truthiness:
`None` and `0` are falsy, any other int is truthy. -/
def stopCheck (expect : Option Int) (count : Nat) : Bool :=
  match expect with
  | none => false
  | some e => if e = 0 then false else decide ((e : Int) ≤ (count : Int))

/-- Result of running a delivery callback once: the events it emitted,
the new `count`, and the exception escaping it, if any. -/
structure CallbackResult where
  events : List Event
  count : Nat
  escape : Option EscapeKind
  deriving DecidableEq, Repr

namespace Consumer

/-- `on_msg(ch_cb, method, props, body)` from src/consumer.py (lines
60-76). `ch_cb` is the delivering channel, `tag` the delivery tag,
`count` the captured running counter, `expect` the `--expect` option.
`displayRaises` / `ackRaises` say whether the print side effect or the
`basic_ack` transport call raises; the callback wraps neither in a
handler, so such a raise escapes. On the happy path it displays, acks on
`ch_cb`, and stops consuming once `count` reaches a truthy `expect`. -/
def on_msg (name : String) (ch_cb tag : Nat) (props : Option Props) (body : Body)
    (count : Nat) (expect : Option Int) (displayRaises ackRaises : Bool) :
    CallbackResult :=
  let count1 := count + 1
  let shown := shownFields body
  if displayRaises then { events := [], count := count1, escape := some .displayError }
  else
    let line : DisplayLine :=
      { name := name, count := count1, msg_id := msgIdOf props,
        producer := producerOf props, nShown := shown.1, textShown := shown.2 }
    if ackRaises then
      { events := [.displayed line], count := count1, escape := some .ackError }
    else
      if stopCheck expect count1 then
        { events := [.displayed line, .acked ch_cb tag, .stoppedConsuming ch_cb],
          count := count1, escape := none }
      else
        { events := [.displayed line, .acked ch_cb tag], count := count1, escape := none }

end Consumer

/-
The `on_msg` callback written at src/consumer_gui.py lines 44-76 is not
modelled as a function: it has no runtime behaviour to embed. The
column-0 string literal at lines 22-43 dedents out of `run_consumer`,
so the re-indented `def on_msg` at line 44 makes the module fail to
parse; independently, its `nonlocal count` has no enclosing binding of
`count` (also refused at compile time), and its body reads `args`,
which is bound only inside `main` and is visible from no enclosing
scope of `on_msg` - every path, including the `except` handler's own
log print, would raise NameError before reaching `basic_ack` or the
guarded `basic_nack`. Its ack/nack recovery code is therefore dead
code; the only modelled part of this file is the connection-parameter
construction above, a static fact about the constructor call at lines
12-15.
-/

/-! ## Concrete broker states used as inputs -/

/-- A broker holding only the work queue, exactly as the consumer's
recovery branch declares it (durable, classic, non-lazy). -/
def workQueueOnly : BrokerState :=
  { queues := [("work.queue", { durable := true, args := qargsFor false })],
    exchanges := [], bindings := [] }

/-- A broker where `work.queue` already exists as a transient queue -
incompatible with a durable re-declare. -/
def transientWorkQueue : BrokerState :=
  { queues := [("work.queue", { durable := false, args := qargsFor false })],
    exchanges := [], bindings := [] }

/-- The broker state left by a successful
`declare_topology` on an empty broker with the default names,
`durable=True`, `lazy=False`. -/
def demoTopology : BrokerState :=
  { queues := [("work.queue", { durable := true, args := qargsFor false }),
      ("audit.queue", { durable := true, args := qargsFor false })],
    exchanges := [("direct.exchange", { exchangeType := "direct", durable := true })],
    bindings := [{ queue := "work.queue", exchange := "direct.exchange", routingKey := "work" },
      { queue := "audit.queue", exchange := "direct.exchange", routingKey := "work" }] }

/-! ## Helper lemmas on the broker-state model -/

theorem lookupBy_append_of_some {α : Type} {l : List (String × α)} {q : String} {a : α}
    (h : lookupBy l q = some a) (l2 : List (String × α)) :
    lookupBy (l ++ l2) q = some a := by
  induction l with
  | nil => simp [lookupBy] at h
  | cons p rest ih =>
      obtain ⟨n, b⟩ := p
      simp only [List.cons_append, lookupBy] at h ⊢
      by_cases hn : n = q
      · simpa [hn] using h
      · simp only [hn, if_false] at h ⊢
        exact ih h

theorem lookupBy_append_of_none {α : Type} {l : List (String × α)} {q : String}
    (h : lookupBy l q = none) (a : α) :
    lookupBy (l ++ [(q, a)]) q = some a := by
  induction l with
  | nil => simp [lookupBy]
  | cons p rest ih =>
      obtain ⟨n, b⟩ := p
      simp only [List.cons_append, lookupBy] at h ⊢
      by_cases hn : n = q
      · simp [hn] at h
      · simp only [hn, if_false] at h ⊢
        exact ih h

theorem queueDeclareActive_ok {s : BrokerState} {q : String} {sp : QueueSpec} {s1 : BrokerState}
    (h : queueDeclareActive s q sp = .ok s1) :
    lookupBy s1.queues q = some sp ∧ s1.exchanges = s.exchanges ∧ s1.bindings = s.bindings ∧
    (∀ q2 sp2, lookupBy s.queues q2 = some sp2 → lookupBy s1.queues q2 = some sp2) := by
  unfold queueDeclareActive at h
  split at h
  · rename_i hl
    simp only [Except.ok.injEq] at h
    subst h
    exact ⟨lookupBy_append_of_none hl sp, rfl, rfl,
      fun q2 sp2 h2 => lookupBy_append_of_some h2 _⟩
  · rename_i ex hl
    split at h
    · rename_i he
      simp only [Except.ok.injEq] at h
      subst h
      exact ⟨he ▸ hl, rfl, rfl, fun _ _ h2 => h2⟩
    · simp at h

theorem queueDeclareActive_of_lookup {s : BrokerState} {q : String} {sp : QueueSpec}
    (h : lookupBy s.queues q = some sp) :
    queueDeclareActive s q sp = .ok s := by
  unfold queueDeclareActive
  rw [h]
  simp

theorem exchangeDeclare_ok {s : BrokerState} {x : String} {sp : ExchangeSpec} {s1 : BrokerState}
    (h : exchangeDeclare s x sp = .ok s1) :
    lookupBy s1.exchanges x = some sp ∧ s1.queues = s.queues ∧ s1.bindings = s.bindings := by
  unfold exchangeDeclare at h
  split at h
  · rename_i hl
    simp only [Except.ok.injEq] at h
    subst h
    exact ⟨lookupBy_append_of_none hl sp, rfl, rfl⟩
  · rename_i ex hl
    split at h
    · rename_i he
      simp only [Except.ok.injEq] at h
      subst h
      exact ⟨he ▸ hl, rfl, rfl⟩
    · simp at h

theorem exchangeDeclare_of_lookup {s : BrokerState} {x : String} {sp : ExchangeSpec}
    (h : lookupBy s.exchanges x = some sp) :
    exchangeDeclare s x sp = .ok s := by
  unfold exchangeDeclare
  rw [h]
  simp

theorem queueBind_queues (s : BrokerState) (b : Binding) :
    (queueBind s b).queues = s.queues := by
  unfold queueBind
  split <;> rfl

theorem queueBind_exchanges (s : BrokerState) (b : Binding) :
    (queueBind s b).exchanges = s.exchanges := by
  unfold queueBind
  split <;> rfl

theorem mem_queueBind_self (s : BrokerState) (b : Binding) :
    b ∈ (queueBind s b).bindings := by
  unfold queueBind
  split
  · assumption
  · simp

theorem mem_queueBind (s : BrokerState) (b b2 : Binding) (h : b2 ∈ s.bindings) :
    b2 ∈ (queueBind s b).bindings := by
  unfold queueBind
  split
  · exact h
  · simp [h]

theorem queueBind_of_mem {s : BrokerState} {b : Binding} (h : b ∈ s.bindings) :
    queueBind s b = s := by
  unfold queueBind
  simp [h]

/-- After a successful `declare_topology`, the resulting broker state
contains the declared exchange, queue(s) and binding(s). -/
theorem declare_topology_spec {s : BrokerState} {ex wq aq rk : String} {dur lz : Bool}
    {s1 : BrokerState}
    (h : Producer.declare_topology s ex wq aq rk dur lz = .ok s1) :
    lookupBy s1.exchanges ex = some { exchangeType := "direct", durable := true } ∧
    lookupBy s1.queues wq = some { durable := dur, args := qargsFor lz } ∧
    ({ queue := wq, exchange := ex, routingKey := rk } : Binding) ∈ s1.bindings ∧
    (aq ≠ "" →
      lookupBy s1.queues aq = some { durable := dur, args := qargsFor lz } ∧
      ({ queue := aq, exchange := ex, routingKey := rk } : Binding) ∈ s1.bindings) := by
  unfold Producer.declare_topology at h
  split at h
  · simp at h
  · rename_i sA hx
    obtain ⟨hxl, _, _⟩ := exchangeDeclare_ok hx
    split at h
    · simp at h
    · rename_i sB hw
      obtain ⟨hwl, hwx, _, hwpres⟩ := queueDeclareActive_ok hw
      dsimp only at h
      by_cases haq : aq ≠ ""
      · rw [if_pos haq] at h
        split at h
        · simp at h
        · rename_i sD ha
          simp only [Except.ok.injEq] at h
          subst h
          obtain ⟨hal, hax, hab, hapres⟩ := queueDeclareActive_ok ha
          constructor
          · rw [queueBind_exchanges, hax, queueBind_exchanges, hwx, hxl]
          · constructor
            · rw [queueBind_queues]
              exact hapres wq _ (by rw [queueBind_queues]; exact hwl)
            · constructor
              · apply mem_queueBind
                rw [hab]
                exact mem_queueBind_self sB _
              · intro _
                refine ⟨?_, ?_⟩
                · rw [queueBind_queues]; exact hal
                · exact mem_queueBind_self _ _
      · rw [if_neg haq] at h
        simp only [Except.ok.injEq] at h
        subst h
        refine ⟨?_, ?_, ?_, ?_⟩
        · rw [queueBind_exchanges, hwx, hxl]
        · rw [queueBind_queues]; exact hwl
        · exact mem_queueBind_self sB _
        · intro hc; exact absurd hc haq

/-- Re-running `declare_topology` on a state that already satisfies its
postcondition is a no-op that succeeds. -/
theorem declare_topology_of_spec {t : BrokerState} {ex wq aq rk : String} {dur lz : Bool}
    (hx : lookupBy t.exchanges ex = some { exchangeType := "direct", durable := true })
    (hw : lookupBy t.queues wq = some { durable := dur, args := qargsFor lz })
    (hbw : ({ queue := wq, exchange := ex, routingKey := rk } : Binding) ∈ t.bindings)
    (ha : aq ≠ "" →
      lookupBy t.queues aq = some { durable := dur, args := qargsFor lz } ∧
      ({ queue := aq, exchange := ex, routingKey := rk } : Binding) ∈ t.bindings) :
    Producer.declare_topology t ex wq aq rk dur lz = .ok t := by
  unfold Producer.declare_topology
  simp only [exchangeDeclare_of_lookup hx, queueDeclareActive_of_lookup hw,
    queueBind_of_mem hbw]
  by_cases haq : aq ≠ ""
  · obtain ⟨hal, hab⟩ := ha haq
    simp only [if_pos haq, queueDeclareActive_of_lookup hal, queueBind_of_mem hab]
  · rw [if_neg haq]

/-! ## Helper lemmas on the producer loop -/

/-- With a nonzero progress cadence the publish loop runs to completion,
appending one envelope per index. -/
theorem publishLoop_done (uuidGen clock : Nat → Nat) (text pid : String) (dur : Bool)
    {pe : Nat} (hpe : pe ≠ 0) :
    ∀ r i acc, Producer.publishLoop uuidGen clock text pid dur pe i r acc =
      (acc ++ (List.range' i r).map (Producer.mkEnv uuidGen clock text pid dur), none) := by
  intro r
  induction r with
  | zero => intro i acc; simp [Producer.publishLoop]
  | succ n ih =>
      intro i acc
      rw [Producer.publishLoop, if_neg hpe, ih (i + 1), List.range'_succ]
      simp

/-! ## Claim theorems -/

/-- C2: for every producer run of N messages (fresh identifier draws,
nonzero progress cadence so the run completes), the run raises nothing,
the `n` fields (sequence numbers) of the published envelopes are exactly
`1, 2, …, N` in publish order, and the `message_id` values are pairwise
distinct. -/
theorem producer_envelope_uniqueness (uuidGen clock : Nat → Nat) (text pid : String)
    (dur : Bool) (count pe : Nat) (hinj : Function.Injective uuidGen) (hpe : pe ≠ 0) :
    (Producer.producerRun uuidGen clock text pid dur count pe).2 = none ∧
    (Producer.producerRun uuidGen clock text pid dur count pe).1.map Envelope.n =
      List.range' 1 count ∧
    ((Producer.producerRun uuidGen clock text pid dur count pe).1.map
      Envelope.message_id).Nodup := by
  have h := publishLoop_done uuidGen clock text pid dur hpe count 1 []
  unfold Producer.producerRun
  refine ⟨?_, ?_, ?_⟩
  · rw [h]
  · rw [h]
    simp only [List.nil_append, List.map_map]
    have hcomp : Envelope.n ∘ Producer.mkEnv uuidGen clock text pid dur = id := rfl
    rw [hcomp, List.map_id]
  · rw [h]
    simp only [List.nil_append, List.map_map]
    have hcomp : Envelope.message_id ∘ Producer.mkEnv uuidGen clock text pid dur = uuidGen :=
      rfl
    rw [hcomp]
    exact (List.nodup_range' 1 count).map hinj

/-- Witness for C2 at a concrete run of 3 messages. -/
theorem producer_envelope_uniqueness_witness :
    (Producer.producerRun id id "Hello World" "alice" true 3 1).2 = none ∧
    (Producer.producerRun id id "Hello World" "alice" true 3 1).1.map Envelope.n =
      List.range' 1 3 ∧
    ((Producer.producerRun id id "Hello World" "alice" true 3 1).1.map
      Envelope.message_id).Nodup :=
  producer_envelope_uniqueness id id "Hello World" "alice" true 3 1
    (fun _ _ hab => hab) (by decide)

/-- C9: with `--progress-every 0` and at least one message to publish,
the progress check `i % progress_every` raises `ZeroDivisionError` right
after the first publish: exactly one message is published and the run
does not complete. -/
theorem progress_every_zero_divzero (uuidGen clock : Nat → Nat) (text pid : String)
    (dur : Bool) (count : Nat) (hc : 1 ≤ count) :
    Producer.producerRun uuidGen clock text pid dur count 0 =
      ([Producer.mkEnv uuidGen clock text pid dur 1], some PyError.zeroDivisionError) := by
  obtain ⟨r, rfl⟩ : ∃ r, count = r + 1 := ⟨count - 1, by omega⟩
  rfl

/-- Witness for C9 at a concrete run of 5 messages. -/
theorem progress_every_zero_divzero_witness :
    Producer.producerRun id id "Hello World" "alice" false 5 0 =
      ([Producer.mkEnv id id "Hello World" "alice" false 1],
        some PyError.zeroDivisionError) :=
  progress_every_zero_divzero id id "Hello World" "alice" false 5 (by decide)

/-- C8 counterexample: the producer's `open_channel` builds connection
parameters with neither a heartbeat nor a blocked-connection timeout, so
it is false that every connect operation sets both. -/
theorem producer_params_no_heartbeat_cex :
    (Producer.open_channel_params "localhost" "/" "guest"
        "RabbitMQ Producer (host1)").heartbeat = none ∧
    (Producer.open_channel_params "localhost" "/" "guest"
        "RabbitMQ Producer (host1)").blocked_connection_timeout = none :=
  ⟨rfl, rfl⟩

/-- C8 amended: only the terminal consumer's `open_channel` sets a
heartbeat (600 s) and a blocked-connection timeout (300 s); the
producer's `open_channel` and the GUI consumer's connection leave both
unset. -/
theorem connect_params_heartbeat_amended :
    ∀ host vhost username conn_name : String,
      (Consumer.open_channel_params host vhost username conn_name).heartbeat = some 600 ∧
      (Consumer.open_channel_params host vhost username
          conn_name).blocked_connection_timeout = some 300 ∧
      (Producer.open_channel_params host vhost username conn_name).heartbeat = none ∧
      (Producer.open_channel_params host vhost username
          conn_name).blocked_connection_timeout = none ∧
      (ConsumerGui.run_consumer_params host vhost username conn_name).heartbeat = none ∧
      (ConsumerGui.run_consumer_params host vhost username
          conn_name).blocked_connection_timeout = none :=
  fun _ _ _ _ => ⟨rfl, rfl, rfl, rfl, rfl, rfl⟩

/-- C1: evaluating the code at a delivery whose display side effect
raises. The terminal consumer's callback has no exception handler: it
emits no nack (no event at all, in particular no log) and the
exception escapes, so the consume loop does not continue - and this
holds for every such delivery, not just the concrete one. The claimed
log-and-requeue recovery exists only as dead code in
src/consumer_gui.py, whose module fails to parse and whose handler
would raise NameError on the unbound name `args` before any nack. -/
theorem handler_exception_not_requeued_cex :
    (Consumer.on_msg "Worker" 1 7 none (Body.jsonObj (some 1) (some "hi")) 0 none true false =
      { events := [], count := 1, escape := some .displayError }) ∧
    ∀ (name : String) (ch_cb tag : Nat) (props : Option Props) (body : Body)
      (count : Nat) (expect : Option Int),
      (Consumer.on_msg name ch_cb tag props body count expect true false).events.filter
          Event.isNack = [] ∧
      (Consumer.on_msg name ch_cb tag props body count expect true false).escape =
        some .displayError :=
  ⟨rfl, fun _ _ _ _ _ _ _ => ⟨rfl, rfl⟩⟩

/-- C5: on a body that is not valid JSON the terminal consumer's callback
(with the display and ack transport succeeding) displays the raw decoded
text with the sequence shown as "?", acknowledges on the delivering
channel, and lets nothing escape. -/
theorem decode_fallback_ack :
    ∀ (name : String) (ch_cb tag : Nat) (props : Option Props) (raw : String)
      (count : Nat) (expect : Option Int),
      (Consumer.on_msg name ch_cb tag props (Body.notJson raw) count expect
          false false).escape = none ∧
      ∃ line rest,
        (Consumer.on_msg name ch_cb tag props (Body.notJson raw) count expect
            false false).events = .displayed line :: .acked ch_cb tag :: rest ∧
        line.nShown = "?" ∧ line.textShown = raw := by
  intro name ch_cb tag props raw count expect
  unfold Consumer.on_msg
  simp only [Bool.false_eq_true, if_false]
  split
  · exact ⟨rfl, _, _, rfl, rfl, rfl⟩
  · exact ⟨rfl, _, _, rfl, rfl, rfl⟩

/-- C6: the terminal consumer's callback settles a delivery at most once
on any path, and on the happy path (display and ack succeed) exactly
once - a single ack, on the delivering channel, issued after the display
event, with nothing escaping. -/
theorem delivery_settled_exactly_once :
    ∀ (name : String) (ch_cb tag : Nat) (props : Option Props) (body : Body)
      (count : Nat) (expect : Option Int) (dR aR : Bool),
      ((Consumer.on_msg name ch_cb tag props body count expect dR aR).events.filter
          Event.isSettlement).length ≤ 1 ∧
      (Consumer.on_msg name ch_cb tag props body count expect false false).events.filter
          Event.isSettlement = [.acked ch_cb tag] ∧
      (∃ line rest,
        (Consumer.on_msg name ch_cb tag props body count expect false false).events =
          .displayed line :: .acked ch_cb tag :: rest) ∧
      (Consumer.on_msg name ch_cb tag props body count expect false false).escape =
        none := by
  intro name ch_cb tag props body count expect dR aR
  refine ⟨?_, ?_, ?_, ?_⟩
  · cases dR <;> cases aR <;>
      · unfold Consumer.on_msg
        simp only [Bool.false_eq_true, if_false, if_true]
        first
        | (split <;> simp [Event.isSettlement])
        | simp [Event.isSettlement]
  · unfold Consumer.on_msg
    simp only [Bool.false_eq_true, if_false]
    split <;> simp [Event.isSettlement]
  · unfold Consumer.on_msg
    simp only [Bool.false_eq_true, if_false]
    split
    · exact ⟨_, _, rfl⟩
    · exact ⟨_, _, rfl⟩
  · unfold Consumer.on_msg
    simp only [Bool.false_eq_true, if_false]
    split <;> rfl

/-- C7: evaluating the code at a delivery whose `basic_ack` transport
call raises (channel already closing). The terminal consumer's
callback leaves `basic_ack` unguarded: the failure is not logged and
not ignored - the exception escapes the callback, terminating the
consume loop, and this holds for every such delivery. The claimed
catch-log-ignore containment exists only as dead code in
src/consumer_gui.py, whose module fails to parse and whose except
branch would raise NameError on the unbound name `args` before its
guarded nack. -/
theorem ack_failure_escapes_cex :
    (Consumer.on_msg "Worker" 1 7 none (Body.jsonObj (some 1) (some "hi")) 0 none false true =
      { events := [.displayed ⟨"Worker", 1, none, none, "1", "hi"⟩],
        count := 1, escape := some .ackError }) ∧
    ∀ (name : String) (ch_cb tag : Nat) (props : Option Props) (body : Body)
      (count : Nat) (expect : Option Int),
      (Consumer.on_msg name ch_cb tag props body count expect false true).escape =
        some .ackError :=
  ⟨by decide, fun _ _ _ _ _ _ _ => rfl⟩

/-- C10: a run with `--expect 0` behaves exactly like a run with no
threshold - the callback's result is identical and it never emits a
`stop_consuming`, whatever the running count. -/
theorem expect_zero_disables_stop :
    ∀ (name : String) (ch_cb tag : Nat) (props : Option Props) (body : Body)
      (count : Nat) (dR aR : Bool),
      Consumer.on_msg name ch_cb tag props body count (some 0) dR aR =
        Consumer.on_msg name ch_cb tag props body count none dR aR ∧
      Event.stoppedConsuming ch_cb ∉
        (Consumer.on_msg name ch_cb tag props body count (some 0) dR aR).events := by
  intro name ch_cb tag props body count dR aR
  constructor
  · rfl
  · cases dR <;> cases aR <;> simp [Consumer.on_msg, stopCheck]

/-- C3 counterexample: on an empty broker the consumer's bootstrapper
takes its NotFound branch and declares only the queue - the resulting
state has no exchange and no binding; and the producer's
`declare_topology` performs no passive probe - on a broker where the
queue already exists with incompatible (transient) configuration it
raises PreconditionFailed instead of returning the probed channel. -/
theorem bootstrap_active_declare_scope_cex :
    Consumer.ensure_queue emptyBroker 1 2 "work.queue" false =
      .ok (workQueueOnly, 2, 3) ∧
    Producer.declare_topology transientWorkQueue "direct.exchange" "work.queue"
      "audit.queue" "work" true false = .error .preconditionFailed :=
  ⟨rfl, rfl⟩

/-- C3 amended: the two-phase probe-then-create belongs to the consumer's
`ensure_queue` and covers only the queue: a passive declare that
succeeds returns the same channel and leaves the broker untouched; iff
it fails with NotFound, a fresh channel is opened and just the queue is
actively declared (durable, classic, with `x-queue-mode=lazy` exactly
when lazy is requested) - no exchange and no binding. The producer's
`declare_topology` unconditionally actively declares the exchange, the
queue(s) and the binding(s) (lazy argument exactly when requested),
with no passive probe. -/
theorem bootstrap_two_phase_amended :
    (∀ (s : BrokerState) (ch nc : Nat) (q : String) (lz : Bool),
        (lookupBy s.queues q).isSome →
        Consumer.ensure_queue s ch nc q lz = .ok (s, ch, nc)) ∧
    (∀ (s : BrokerState) (ch nc : Nat) (q : String) (lz : Bool),
        lookupBy s.queues q = none →
        Consumer.ensure_queue s ch nc q lz =
          .ok (⟨s.queues ++ [(q, ⟨true, qargsFor lz⟩)], s.exchanges, s.bindings⟩,
            nc, nc + 1)) ∧
    (∀ (ex wq aq rk : String) (dur lz : Bool), wq ≠ aq → aq ≠ "" →
        Producer.declare_topology emptyBroker ex wq aq rk dur lz =
          .ok ⟨[(wq, ⟨dur, qargsFor lz⟩), (aq, ⟨dur, qargsFor lz⟩)],
            [(ex, ⟨"direct", true⟩)], [⟨wq, ex, rk⟩, ⟨aq, ex, rk⟩]⟩) := by
  refine ⟨?_, ?_, ?_⟩
  · intro s ch nc q lz h
    simp [Consumer.ensure_queue, queueDeclarePassive, h]
  · intro s ch nc q lz h
    simp [Consumer.ensure_queue, queueDeclarePassive, queueDeclareActive, h]
  · intro ex wq aq rk dur lz hwq haq
    have haw : aq ≠ wq := Ne.symm hwq
    simp [Producer.declare_topology, exchangeDeclare, queueDeclareActive, queueBind,
      emptyBroker, lookupBy, hwq, haq, haw]

/-- Witness for C3 amended at concrete inputs: a broker already holding
the work queue (passive branch), an empty broker (NotFound branch), and
a full default-named topology declare. -/
theorem bootstrap_two_phase_amended_witness :
    Consumer.ensure_queue workQueueOnly 1 2 "work.queue" false =
      .ok (workQueueOnly, 1, 2) ∧
    Consumer.ensure_queue emptyBroker 1 2 "work.queue" false =
      .ok (⟨[("work.queue", ⟨true, qargsFor false⟩)], [], []⟩, 2, 3) ∧
    Producer.declare_topology emptyBroker "direct.exchange" "work.queue" "audit.queue"
      "work" true false =
      .ok ⟨[("work.queue", ⟨true, qargsFor false⟩), ("audit.queue", ⟨true, qargsFor false⟩)],
        [("direct.exchange", ⟨"direct", true⟩)],
        [⟨"work.queue", "direct.exchange", "work"⟩,
          ⟨"audit.queue", "direct.exchange", "work"⟩]⟩ :=
  ⟨bootstrap_two_phase_amended.1 workQueueOnly 1 2 "work.queue" false (by decide),
   bootstrap_two_phase_amended.2.1 emptyBroker 1 2 "work.queue" false rfl,
   bootstrap_two_phase_amended.2.2 "direct.exchange" "work.queue" "audit.queue" "work"
     true false (by decide) (by decide)⟩

/-- C4: the bootstrap is idempotent. Once the consumer's `ensure_queue`
has succeeded, running it again returns the same channel and the same
broker state with no error; once the producer's `declare_topology` has
succeeded, running it again with the same descriptor succeeds and
leaves the broker state unchanged. -/
theorem bootstrap_idempotent :
    (∀ (s : BrokerState) (ch nc : Nat) (q : String) (lz : Bool)
        (s1 : BrokerState) (ch1 nc1 : Nat),
        Consumer.ensure_queue s ch nc q lz = .ok (s1, ch1, nc1) →
        Consumer.ensure_queue s1 ch1 nc1 q lz = .ok (s1, ch1, nc1)) ∧
    (∀ (s : BrokerState) (ex wq aq rk : String) (dur lz : Bool) (s1 : BrokerState),
        Producer.declare_topology s ex wq aq rk dur lz = .ok s1 →
        Producer.declare_topology s1 ex wq aq rk dur lz = .ok s1) := by
  constructor
  · intro s ch nc q lz s1 ch1 nc1 h
    have hq : (lookupBy s1.queues q).isSome = true := by
      unfold Consumer.ensure_queue at h
      split at h
      · rename_i hp
        simp only [Except.ok.injEq, Prod.mk.injEq] at h
        obtain ⟨h1, -, -⟩ := h
        subst h1
        unfold queueDeclarePassive at hp
        split at hp
        · assumption
        · simp at hp
      · rename_i hp
        split at h
        · rename_i sA hA
          simp only [Except.ok.injEq, Prod.mk.injEq] at h
          obtain ⟨h1, -, -⟩ := h
          subst h1
          obtain ⟨hl, -, -, -⟩ := queueDeclareActive_ok hA
          simp [hl]
        · simp at h
    simp [Consumer.ensure_queue, queueDeclarePassive, hq]
  · intro s ex wq aq rk dur lz s1 h
    obtain ⟨hx, hw, hbw, ha⟩ := declare_topology_spec h
    exact declare_topology_of_spec hx hw hbw ha

/-- Witness for C4 at concrete inputs: re-running `ensure_queue` after it
created `work.queue` on an empty broker, and re-running
`declare_topology` on the state its first run produced. -/
theorem bootstrap_idempotent_witness :
    Consumer.ensure_queue workQueueOnly 2 3 "work.queue" false =
      .ok (workQueueOnly, 2, 3) ∧
    Producer.declare_topology demoTopology "direct.exchange" "work.queue" "audit.queue"
      "work" true false = .ok demoTopology :=
  ⟨bootstrap_idempotent.1 emptyBroker 1 2 "work.queue" false workQueueOnly 2 3 rfl,
   bootstrap_idempotent.2 emptyBroker "direct.exchange" "work.queue" "audit.queue" "work"
     true false demoTopology rfl⟩

end RabbitDemo
